import Mathlib

/-!
Verification of the MacroTrack nutrition-tracking core (Capstone repository).

The development shallowly embeds the computation layer of the application:
the Mongoose pre-save aggregation hooks of `src/models/MealEntry.ts` and
`src/models/User.ts` (file `macrotrack_database_models.ts`), the meal
submission handler and goal-progress helper of `src/pages/api/meals/index.ts`,
the amount validation of `src/pages/api/foods/[id].ts`, and the nutrition
scaling of `src/services/spoonacularService.ts`
(file `macrotrack_api_controllers.ts`), together with the TDEE utility
of `macrotrack-complete.tsx`.

JavaScript numbers are modelled as exact rationals (`ℚ`); `Math.round` is
floor of `q + 1/2` (ties toward +∞), matching JavaScript on the finite
inputs that occur here.  Where non-finite values matter (the amount
validation of the `foods/[id]` handler) an explicit `JSNumber` type with
NaN and the two infinities is used.  Wall-clock data (`Date` fields such
as `addedAt`) is not modelled; where the source derives `age` from
`dateOfBirth` the age is taken as a parameter.
-/

namespace MacroTrack

/-! ### Numeric helpers -/

/-- JavaScript `Math.round`: nearest integer, ties round toward +∞. -/
def jsRound (q : ℚ) : ℤ := ⌊q + 1/2⌋

/-- `Math.round(q * 10) / 10`: rounding to one decimal place. -/
def round1 (q : ℚ) : ℚ := (jsRound (q * 10) : ℚ) / 10

/-- `Math.round(q * 100) / 100`: rounding to two decimal places. -/
def round2 (q : ℚ) : ℚ := (jsRound (q * 100) : ℚ) / 100

/-! ### Data model (`src/models/MealEntry.ts`) -/

/-- `INutrition`: the full nutrition record.  Optional extended fields
default to 0 (Mongoose schema defaults). -/
structure Nutrition where
  calories : ℚ
  protein : ℚ
  carbohydrates : ℚ
  fat : ℚ
  fiber : ℚ := 0
  sugar : ℚ := 0
  sodium : ℚ := 0
  potassium : ℚ := 0
  calcium : ℚ := 0
  iron : ℚ := 0
deriving DecidableEq

/-- `MealTotalsSchema`: meal totals track only five nutrients. -/
structure MealTotals where
  calories : ℚ
  protein : ℚ
  carbohydrates : ℚ
  fat : ℚ
  fiber : ℚ
deriving DecidableEq

/-- The all-zero meal totals: the initial accumulator of the per-meal
reduce, and the `mealTotals` the meals handler attaches to a fresh meal. -/
def MealTotals.zero : MealTotals := ⟨0, 0, 0, 0, 0⟩

/-- The all-zero accumulator of the daily reduce. -/
def Nutrition.zero : Nutrition := ⟨0, 0, 0, 0, 0, 0, 0, 0, 0, 0⟩

/-- `mealType` enumeration of `MealSchema`. -/
inductive MealType
  | breakfast
  | lunch
  | dinner
  | snack
deriving DecidableEq

/-- `IFood`: one logged food inside a meal.  `addedAt : Date` is wall-clock
data and is not modelled; the optional `isCustomFood` arrives here already
defaulted to `false` (`food.isCustomFood || false` in the meals handler). -/
structure Food where
  name : String
  amount : ℚ
  unit : String
  nutritionPer100g : Nutrition
  actualNutrition : Nutrition
  isCustomFood : Bool
deriving DecidableEq

/-- `IMeal`: one meal of a day. -/
structure Meal where
  mealType : MealType
  mealName : String := ""
  foods : List Food
  mealTotals : MealTotals
deriving DecidableEq

/-- `IMealEntry`: the per-user per-day aggregate record (userId/date/
goalProgress omitted; they do not enter the aggregation computation). -/
structure MealEntry where
  meals : List Meal
  dailyTotals : Nutrition
deriving DecidableEq

/-! ### `MealEntrySchema.pre('save')` — the aggregation hook
(`macrotrack_database_models.ts`, lines 543–576) -/

/-- One step of the per-meal reduce:
`(totals, food) => ({calories: totals.calories + food.actualNutrition.calories, …})`. -/
def addFoodTotals (totals : MealTotals) (food : Food) : MealTotals :=
  { calories := totals.calories + food.actualNutrition.calories
    protein := totals.protein + food.actualNutrition.protein
    carbohydrates := totals.carbohydrates + food.actualNutrition.carbohydrates
    fat := totals.fat + food.actualNutrition.fat
    fiber := totals.fiber + food.actualNutrition.fiber }

/-- `meal.foods.reduce(…, {calories: 0, protein: 0, carbohydrates: 0, fat: 0, fiber: 0})`. -/
def calculatedTotals (foods : List Food) : MealTotals :=
  foods.foldl addFoodTotals MealTotals.zero

/-- One step of the daily reduce.  The five tracked fields add the meal's
`mealTotals`; the extended fields read `totals.sugar || 0` etc., i.e. the
accumulator's own previous value (with falsy 0 mapped to 0) — the meal is
never consulted for them. -/
def addMealTotals (totals : Nutrition) (meal : Meal) : Nutrition :=
  { calories := totals.calories + meal.mealTotals.calories
    protein := totals.protein + meal.mealTotals.protein
    carbohydrates := totals.carbohydrates + meal.mealTotals.carbohydrates
    fat := totals.fat + meal.mealTotals.fat
    fiber := totals.fiber + meal.mealTotals.fiber
    sugar := if totals.sugar = 0 then 0 else totals.sugar
    sodium := if totals.sodium = 0 then 0 else totals.sodium
    potassium := if totals.potassium = 0 then 0 else totals.potassium
    calcium := if totals.calcium = 0 then 0 else totals.calcium
    iron := if totals.iron = 0 then 0 else totals.iron }

/-- `this.meals.reduce(…, {calories: 0, …, iron: 0})`. -/
def calcDailyTotals (meals : List Meal) : Nutrition :=
  meals.foldl addMealTotals Nutrition.zero

/-- The `MealEntrySchema.pre('save')` hook: every meal's `mealTotals` is
overwritten with the sum of its foods' `actualNutrition`, then
`dailyTotals` is overwritten with the reduce over the refreshed meals. -/
def mealEntryPreSave (entry : MealEntry) : MealEntry :=
  let meals := entry.meals.map fun meal =>
    { meal with mealTotals := calculatedTotals meal.foods }
  { entry with meals := meals, dailyTotals := calcDailyTotals meals }

/-! ### Metabolic calculator
(`UserSchema.methods.generateBMR` / `generateTDEE` in
`macrotrack_database_models.ts`; `calculateTDEE` in
`macrotrack-complete.tsx`) -/

inductive Gender
  | male
  | female
  | other
deriving DecidableEq

inductive WeightUnit
  | kg
  | lbs
deriving DecidableEq

inductive HeightUnit
  | cm
  | inches
deriving DecidableEq

/-- `generateBMR`: Mifflin–St Jeor, with imperial-to-metric conversion and
`Math.round` at the end.  The source derives `age` from `dateOfBirth` by a
calendar-year difference; the age is a parameter here. -/
def generateBMR (weightValue : ℚ) (weightUnit : WeightUnit)
    (heightValue : ℚ) (heightUnit : HeightUnit) (age : ℚ) (gender : Gender) : ℤ :=
  let weightKg := match weightUnit with
    | .kg => weightValue
    | .lbs => weightValue * 0.453592
  let heightCm := match heightUnit with
    | .cm => heightValue
    | .inches => heightValue * 2.54
  match gender with
  | .male => jsRound (10 * weightKg + 6.25 * heightCm - 5 * age + 5)
  | _ => jsRound (10 * weightKg + 6.25 * heightCm - 5 * age - 161)

/-- The multipliers object of `calculateTDEE` / `generateTDEE`, as a JS
property lookup: `none` models `undefined` for a key outside the object. -/
def activityMultipliers (level : String) : Option ℚ :=
  if level = "sedentary" then some 1.2
  else if level = "light" then some 1.375
  else if level = "moderate" then some 1.55
  else if level = "active" then some 1.725
  else if level = "very_active" then some 1.9
  else none

/-- `calculateTDEE` (`macrotrack-complete.tsx`):
`Math.round(bmr * (multipliers[activityLevel] || 1.2))`.  The `|| 1.2`
fallback fires exactly on `undefined` here, since every value in the
multipliers object is truthy. -/
def calculateTDEE (bmr : ℚ) (activityLevel : String) : ℤ :=
  jsRound (bmr * ((activityMultipliers activityLevel).getD 1.2))

/-! ### `UserSchema.pre('save')` — macro percentages
(`macrotrack_database_models.ts`, lines 298–310) -/

structure MacroTargets where
  protein : ℚ
  carbohydrates : ℚ
  fat : ℚ
  fiber : ℚ := 25
deriving DecidableEq

structure MacroPercentages where
  protein : ℚ
  carbohydrates : ℚ
  fat : ℚ
deriving DecidableEq

structure UserGoals where
  dailyCalories : ℚ
  macroTargets : MacroTargets
  macroPercentages : MacroPercentages
deriving DecidableEq

/-- The macro-percentage pre-save hook of `UserSchema`.  The Boolean flag
models `this.isModified('goals.macroTargets') || this.isModified('goals.dailyCalories')`;
when it holds, `macroPercentages` is recomputed as
`Math.round((target * kcalPerGram / dailyCalories) * 100)` with 4 kcal/g for
protein and carbohydrates and 9 kcal/g for fat. -/
def userPreSave (modifiedTargetsOrCalories : Bool) (goals : UserGoals) : UserGoals :=
  if modifiedTargetsOrCalories then
    { goals with macroPercentages :=
        { protein := (jsRound (goals.macroTargets.protein * 4 / goals.dailyCalories * 100) : ℚ)
          carbohydrates :=
            (jsRound (goals.macroTargets.carbohydrates * 4 / goals.dailyCalories * 100) : ℚ)
          fat := (jsRound (goals.macroTargets.fat * 9 / goals.dailyCalories * 100) : ℚ) } }
  else goals

/-! ### Goal progress (`calculateGoalProgress` in
`src/pages/api/meals/index.ts`, `macrotrack_api_controllers.ts` lines 628–635) -/

/-- `IGoalProgress`. -/
structure GoalProgress where
  target : ℚ
  actual : ℚ
  percentage : ℚ
  remaining : ℚ
deriving DecidableEq

/-- `calculateGoalProgress(actual, target)`:
`{ target, actual: Math.round(actual*100)/100,
   percentage: target > 0 ? Math.round((actual/target)*100) : 0,
   remaining: Math.max(0, target - actual) }`. -/
def calculateGoalProgress (actual target : ℚ) : GoalProgress :=
  { target := target
    actual := round2 actual
    percentage := if 0 < target then (jsRound (actual / target * 100) : ℚ) else 0
    remaining := max 0 (target - actual) }

/-! ### Spoonacular mock nutrition (`getMockNutritionData` in
`src/services/spoonacularService.ts`, `macrotrack_api_controllers.ts`
lines 945–978) -/

/-- `SpoonacularNutrition`: the seven-field nutrition record returned by
the food lookup service. -/
structure SpoonacularNutrition where
  calories : ℚ
  protein : ℚ
  carbohydrates : ℚ
  fat : ℚ
  fiber : ℚ
  sugar : ℚ := 0
  sodium : ℚ := 0
deriving DecidableEq

/-- The `mockNutrition` table (per 100 g), keyed by food id. -/
def mockNutrition (id : ℕ) : Option SpoonacularNutrition :=
  match id with
  | 1 => some ⟨165, 31, 0, 3.6, 0, 0, 74⟩
  | 2 => some ⟨123, 2.6, 23, 0.9, 1.8, 0.4, 5⟩
  | 3 => some ⟨34, 2.8, 7, 0.4, 2.6, 1.5, 33⟩
  | 4 => some ⟨208, 25, 0, 12, 0, 0, 67⟩
  | 5 => some ⟨59, 10, 3.6, 0.4, 0, 3.2, 36⟩
  | 6 => some ⟨68, 2.4, 12, 1.4, 1.7, 0.8, 49⟩
  | 7 => some ⟨86, 1.6, 20, 0.1, 3, 4.2, 54⟩
  | 8 => some ⟨23, 2.9, 3.6, 0.4, 2.2, 0.4, 79⟩
  | 9 => some ⟨579, 21, 22, 50, 12, 4.3, 1⟩
  | 10 => some ⟨89, 1.1, 23, 0.3, 2.6, 12, 1⟩
  | _ => none

/-- The `scaledNutrition` object built by `getMockNutritionData`:
`multiplier = amount / 100`; calories rounded to the nearest integer,
every other field to one decimal place.  (`sugar`/`sodium` appear as
`(base.sugar || 0)` in the source; the table stores them as plain
rationals so the falsy-0 coalescing is the identity.) -/
def scaledNutrition (base : SpoonacularNutrition) (amount : ℚ) : SpoonacularNutrition :=
  { calories := (jsRound (base.calories * (amount / 100)) : ℚ)
    protein := round1 (base.protein * (amount / 100))
    carbohydrates := round1 (base.carbohydrates * (amount / 100))
    fat := round1 (base.fat * (amount / 100))
    fiber := round1 (base.fiber * (amount / 100))
    sugar := round1 (base.sugar * (amount / 100))
    sodium := round1 (base.sodium * (amount / 100)) }

/-- `getMockNutritionData(id, amount, unit).nutrition`: table lookup with
fallback to entry 1 (`mockNutrition[id] || mockNutrition[1]`), then
scaling.  The `unit` argument is ignored by the source. -/
def getMockNutritionData (id : ℕ) (amount : ℚ) : SpoonacularNutrition :=
  scaledNutrition ((mockNutrition id).getD ⟨165, 31, 0, 3.6, 0, 0, 74⟩) amount

/-! ### Amount validation of the `foods/[id]` handler
(`macrotrack_api_controllers.ts`, lines 474–480) -/

/-- A JavaScript double as relevant to `parseFloat` results: NaN, the two
infinities, or a finite value. -/
inductive JSNumber
  | nan
  | posInf
  | negInf
  | finite (val : ℚ)
deriving DecidableEq

/-- JS `isNaN(x)`. -/
def JSNumber.isNaN : JSNumber → Bool
  | .nan => true
  | _ => false

/-- JS `x <= 0` (false on NaN and +∞, true on −∞). -/
def JSNumber.leZero : JSNumber → Bool
  | .nan => false
  | .posInf => false
  | .negInf => true
  | .finite q => decide (q ≤ 0)

/-- JS `Number.isFinite(x)`. -/
def JSNumber.isFinite : JSNumber → Bool
  | .finite _ => true
  | _ => false

inductive ApiError
  | invalidAmount
deriving DecidableEq

/-- The amount gate of the `foods/[id]` handler:
`if (isNaN(amountNum) || amountNum <= 0) return 400 INVALID_AMOUNT` —
run before `getFoodNutrition` is invoked; on success the amount flows on
unchanged. -/
def validateFoodAmount (amountNum : JSNumber) : Except ApiError JSNumber :=
  if amountNum.isNaN || amountNum.leZero then .error .invalidAmount
  else .ok amountNum

/-! ### The meals handler (`src/pages/api/meals/index.ts`,
`macrotrack_api_controllers.ts` lines 678–749) -/

/-- The `newMeal` object the handler builds from the validated request:
client-supplied foods (the spread keeps `actualNutrition` exactly as sent)
with `mealTotals` zeroed for the pre-save hook to fill in. -/
def newMeal (mealType : MealType) (mealName : String) (foods : List Food) : Meal :=
  { mealType := mealType
    mealName := mealName
    foods := foods
    mealTotals := MealTotals.zero }

/-- `existingMealIndex = meals.findIndex(m => m.mealType === new.mealType)`;
`if (existingMealIndex >= 0) meals[existingMealIndex] = newMeal; else
meals.push(newMeal)`.  `List.findIdx` returns the length when nothing
matches, so `>= 0` becomes `< meals.length`. -/
def replaceOrAppendMeal (meals : List Meal) (nm : Meal) : List Meal :=
  if meals.findIdx (fun meal => meal.mealType == nm.mealType) < meals.length then
    meals.set (meals.findIdx fun meal => meal.mealType == nm.mealType) nm
  else meals ++ [nm]

/-- Recursive restatement of `replaceOrAppendMeal` (replace the first meal
of the same type, else append); proved equal below and used in proofs. -/
def replaceOrAppendMealAux : List Meal → Meal → List Meal
  | [], nm => [nm]
  | m :: ms, nm =>
    if m.mealType == nm.mealType then nm :: ms
    else m :: replaceOrAppendMealAux ms nm

/-- The update path of the meals handler followed by the model's pre-save
hook: place the new meal (replace-or-append), then `mealEntry.save()`
recomputes every total.  (The handler's second save only rewrites
`goalProgress`, which is not part of `MealEntry` here.) -/
def submitMeal (entry : MealEntry) (mealType : MealType) (mealName : String)
    (foods : List Food) : MealEntry :=
  mealEntryPreSave
    { entry with meals := replaceOrAppendMeal entry.meals (newMeal mealType mealName foods) }

/-- The zod `mealSchema` constraints on one food together with the
Mongoose `FoodSchema` amount bounds: `amount ≥ 0.1`, `amount ≤ 10000`, and
every tracked nutrition field of both records non-negative.  Note there is
no constraint linking `actualNutrition` to `nutritionPer100g`. -/
def nutritionNonneg (n : Nutrition) : Bool :=
  (0 ≤ n.calories) && (0 ≤ n.protein) && (0 ≤ n.carbohydrates) &&
    (0 ≤ n.fat) && (0 ≤ n.fiber)

def foodValid (f : Food) : Bool :=
  (1/10 ≤ f.amount) && (f.amount ≤ 10000) &&
    nutritionNonneg f.nutritionPer100g && nutritionNonneg f.actualNutrition

/-- Modelled from the spec (§3 FoodEntry / §4.1 Nutrition Scaler): the
scaling invariant the spec asserts for stored foods, `scale(ref, amount,
referenceAmount)` — every field multiplied by `amount / referenceAmount`,
calories rounded to the nearest integer, gram-valued fields to one decimal
place.  This definition follows the spec's words and exists to be compared
with what the code actually stores; the code itself scales only inside the
food-lookup service (`scaledNutrition` above). -/
def scaleSpec (ref : Nutrition) (amount referenceAmount : ℚ) : Nutrition :=
  { calories := (jsRound (ref.calories * (amount / referenceAmount)) : ℚ)
    protein := round1 (ref.protein * (amount / referenceAmount))
    carbohydrates := round1 (ref.carbohydrates * (amount / referenceAmount))
    fat := round1 (ref.fat * (amount / referenceAmount))
    fiber := round1 (ref.fiber * (amount / referenceAmount))
    sugar := round1 (ref.sugar * (amount / referenceAmount))
    sodium := round1 (ref.sodium * (amount / referenceAmount))
    potassium := round1 (ref.potassium * (amount / referenceAmount))
    calcium := round1 (ref.calcium * (amount / referenceAmount))
    iron := round1 (ref.iron * (amount / referenceAmount)) }

/-! ### Concrete sample data for witnesses and counterexamples -/

/-- Chicken breast per 100 g, as the ten-field `Nutrition` record. -/
def chickenPer100g : Nutrition :=
  { calories := 165, protein := 31, carbohydrates := 0, fat := 3.6 }

/-- 150 g of chicken breast with the correctly scaled actual nutrition. -/
def chicken150 : Food :=
  { name := "Chicken Breast"
    amount := 150
    unit := "grams"
    nutritionPer100g := chickenPer100g
    actualNutrition := { calories := 248, protein := 46.5, carbohydrates := 0, fat := 5.4 }
    isCustomFood := false }

/-- A one-meal day entry used to instantiate the aggregation theorems. -/
def sampleEntry : MealEntry :=
  { meals := [{ mealType := .breakfast, foods := [chicken150], mealTotals := MealTotals.zero }]
    dailyTotals := Nutrition.zero }

/-- The breakfast meal of `sampleEntry` as refreshed by the pre-save hook. -/
def sampleSavedMeal : Meal :=
  { mealType := .breakfast
    foods := [chicken150]
    mealTotals := calculatedTotals [chicken150] }

/-- A banana food whose extended nutrients are nonzero (sugar 12 per 100 g),
used to show the daily reduce drops extended fields. -/
def banana100 : Food :=
  { name := "Banana"
    amount := 100
    unit := "grams"
    nutritionPer100g := { calories := 89, protein := 1.1, carbohydrates := 23,
                          fat := 0.3, fiber := 2.6, sugar := 12, sodium := 1 }
    actualNutrition := { calories := 89, protein := 1.1, carbohydrates := 23,
                         fat := 0.3, fiber := 2.6, sugar := 12, sodium := 1 }
    isCustomFood := false }

/-- A day whose only food carries nonzero sugar and sodium. -/
def bananaEntry : MealEntry :=
  { meals := [{ mealType := .snack, foods := [banana100], mealTotals := MealTotals.zero }]
    dailyTotals := Nutrition.zero }

/-- A food worth 300 kcal, the breakfast first logged in the
replace-not-merge scenario. -/
def food300 : Food :=
  { name := "Bagel"
    amount := 100
    unit := "grams"
    nutritionPer100g := { calories := 300, protein := 11, carbohydrates := 59, fat := 2 }
    actualNutrition := { calories := 300, protein := 11, carbohydrates := 59, fat := 2 }
    isCustomFood := false }

/-- A food worth 400 kcal, the breakfast submitted second. -/
def food400 : Food :=
  { name := "Pancakes"
    amount := 200
    unit := "grams"
    nutritionPer100g := { calories := 200, protein := 6, carbohydrates := 28, fat := 7 }
    actualNutrition := { calories := 400, protein := 12, carbohydrates := 56, fat := 14 }
    isCustomFood := false }

/-- The already-logged 300 kcal breakfast meal. -/
def breakfastMeal300 : Meal :=
  { mealType := .breakfast, foods := [food300], mealTotals := ⟨300, 11, 59, 2, 0⟩ }

/-- A day already holding a 300 kcal breakfast. -/
def day300 : MealEntry :=
  { meals := [breakfastMeal300]
    dailyTotals := { calories := 300, protein := 11, carbohydrates := 59, fat := 2 } }

/-- A lunch logged with an empty food list but stale nonzero totals, to
instantiate the empty-food-list clause of the aggregation theorem. -/
def emptyLunchEntry : MealEntry :=
  { meals := [{ mealType := .lunch, foods := [], mealTotals := ⟨5, 5, 5, 5, 5⟩ }]
    dailyTotals := Nutrition.zero }

/-- A schema-valid food whose client-supplied `actualNutrition` is *not*
the scaled reference nutrition (calories 999 instead of 248). -/
def bogusFood : Food :=
  { name := "Chicken Breast"
    amount := 150
    unit := "grams"
    nutritionPer100g := chickenPer100g
    actualNutrition := { calories := 999, protein := 1, carbohydrates := 2, fat := 3 }
    isCustomFood := false }

/-- An empty day, as created by the meals handler when no entry exists. -/
def emptyDay : MealEntry :=
  { meals := [], dailyTotals := Nutrition.zero }

/-! ## Supporting lemmas -/

/-- `jsRound` is within 1/2 of its argument. -/
theorem jsRound_dist (q : ℚ) : |(jsRound q : ℚ) - q| ≤ 1/2 := by
  rw [abs_le]
  constructor
  · have h : (q + 1/2) - 1 < (⌊q + 1/2⌋ : ℚ) := Int.sub_one_lt_floor _
    simp only [jsRound]
    linarith
  · have h : (⌊q + 1/2⌋ : ℚ) ≤ q + 1/2 := Int.floor_le _
    simp only [jsRound]
    linarith

/-- `round1` is within 1/20 of its argument. -/
theorem round1_dist (q : ℚ) : |round1 q - q| ≤ 1/20 := by
  have h := jsRound_dist (q * 10)
  rw [round1, show (jsRound (q * 10) : ℚ) / 10 - q = ((jsRound (q * 10) : ℚ) - q * 10) / 10
    by ring, abs_div]
  rw [show |(10 : ℚ)| = 10 by norm_num]
  linarith

theorem foldl_addFoodTotals_calories (foods : List Food) (t : MealTotals) :
    (foods.foldl addFoodTotals t).calories =
      t.calories + (foods.map fun f => f.actualNutrition.calories).sum := by
  induction foods generalizing t with
  | nil => simp
  | cons f fs ih =>
    simp only [List.foldl_cons, List.map_cons, List.sum_cons, ih, addFoodTotals]
    ring

theorem foldl_addFoodTotals_protein (foods : List Food) (t : MealTotals) :
    (foods.foldl addFoodTotals t).protein =
      t.protein + (foods.map fun f => f.actualNutrition.protein).sum := by
  induction foods generalizing t with
  | nil => simp
  | cons f fs ih =>
    simp only [List.foldl_cons, List.map_cons, List.sum_cons, ih, addFoodTotals]
    ring

theorem foldl_addFoodTotals_carbohydrates (foods : List Food) (t : MealTotals) :
    (foods.foldl addFoodTotals t).carbohydrates =
      t.carbohydrates + (foods.map fun f => f.actualNutrition.carbohydrates).sum := by
  induction foods generalizing t with
  | nil => simp
  | cons f fs ih =>
    simp only [List.foldl_cons, List.map_cons, List.sum_cons, ih, addFoodTotals]
    ring

theorem foldl_addFoodTotals_fat (foods : List Food) (t : MealTotals) :
    (foods.foldl addFoodTotals t).fat =
      t.fat + (foods.map fun f => f.actualNutrition.fat).sum := by
  induction foods generalizing t with
  | nil => simp
  | cons f fs ih =>
    simp only [List.foldl_cons, List.map_cons, List.sum_cons, ih, addFoodTotals]
    ring

theorem foldl_addFoodTotals_fiber (foods : List Food) (t : MealTotals) :
    (foods.foldl addFoodTotals t).fiber =
      t.fiber + (foods.map fun f => f.actualNutrition.fiber).sum := by
  induction foods generalizing t with
  | nil => simp
  | cons f fs ih =>
    simp only [List.foldl_cons, List.map_cons, List.sum_cons, ih, addFoodTotals]
    ring

theorem foldl_addMealTotals_calories (meals : List Meal) (t : Nutrition) :
    (meals.foldl addMealTotals t).calories =
      t.calories + (meals.map fun m => m.mealTotals.calories).sum := by
  induction meals generalizing t with
  | nil => simp
  | cons m ms ih =>
    simp only [List.foldl_cons, List.map_cons, List.sum_cons, ih, addMealTotals]
    ring

theorem foldl_addMealTotals_protein (meals : List Meal) (t : Nutrition) :
    (meals.foldl addMealTotals t).protein =
      t.protein + (meals.map fun m => m.mealTotals.protein).sum := by
  induction meals generalizing t with
  | nil => simp
  | cons m ms ih =>
    simp only [List.foldl_cons, List.map_cons, List.sum_cons, ih, addMealTotals]
    ring

theorem foldl_addMealTotals_carbohydrates (meals : List Meal) (t : Nutrition) :
    (meals.foldl addMealTotals t).carbohydrates =
      t.carbohydrates + (meals.map fun m => m.mealTotals.carbohydrates).sum := by
  induction meals generalizing t with
  | nil => simp
  | cons m ms ih =>
    simp only [List.foldl_cons, List.map_cons, List.sum_cons, ih, addMealTotals]
    ring

theorem foldl_addMealTotals_fat (meals : List Meal) (t : Nutrition) :
    (meals.foldl addMealTotals t).fat =
      t.fat + (meals.map fun m => m.mealTotals.fat).sum := by
  induction meals generalizing t with
  | nil => simp
  | cons m ms ih =>
    simp only [List.foldl_cons, List.map_cons, List.sum_cons, ih, addMealTotals]
    ring

theorem foldl_addMealTotals_fiber (meals : List Meal) (t : Nutrition) :
    (meals.foldl addMealTotals t).fiber =
      t.fiber + (meals.map fun m => m.mealTotals.fiber).sum := by
  induction meals generalizing t with
  | nil => simp
  | cons m ms ih =>
    simp only [List.foldl_cons, List.map_cons, List.sum_cons, ih, addMealTotals]
    ring

theorem foldl_addMealTotals_sugar (meals : List Meal) (t : Nutrition) :
    (meals.foldl addMealTotals t).sugar = if t.sugar = 0 then 0 else t.sugar := by
  induction meals generalizing t with
  | nil => split <;> simp_all
  | cons m ms ih =>
    simp only [List.foldl_cons, ih, addMealTotals]
    split <;> simp_all

theorem foldl_addMealTotals_sodium (meals : List Meal) (t : Nutrition) :
    (meals.foldl addMealTotals t).sodium = if t.sodium = 0 then 0 else t.sodium := by
  induction meals generalizing t with
  | nil => split <;> simp_all
  | cons m ms ih =>
    simp only [List.foldl_cons, ih, addMealTotals]
    split <;> simp_all

theorem foldl_addMealTotals_potassium (meals : List Meal) (t : Nutrition) :
    (meals.foldl addMealTotals t).potassium = if t.potassium = 0 then 0 else t.potassium := by
  induction meals generalizing t with
  | nil => split <;> simp_all
  | cons m ms ih =>
    simp only [List.foldl_cons, ih, addMealTotals]
    split <;> simp_all

theorem foldl_addMealTotals_calcium (meals : List Meal) (t : Nutrition) :
    (meals.foldl addMealTotals t).calcium = if t.calcium = 0 then 0 else t.calcium := by
  induction meals generalizing t with
  | nil => split <;> simp_all
  | cons m ms ih =>
    simp only [List.foldl_cons, ih, addMealTotals]
    split <;> simp_all

theorem foldl_addMealTotals_iron (meals : List Meal) (t : Nutrition) :
    (meals.foldl addMealTotals t).iron = if t.iron = 0 then 0 else t.iron := by
  induction meals generalizing t with
  | nil => split <;> simp_all
  | cons m ms ih =>
    simp only [List.foldl_cons, ih, addMealTotals]
    split <;> simp_all

/-- The handler's findIndex-and-assign placement equals its recursive
restatement. -/
theorem replaceOrAppendMeal_eq_aux (meals : List Meal) (nm : Meal) :
    replaceOrAppendMeal meals nm = replaceOrAppendMealAux meals nm := by
  induction meals with
  | nil => rfl
  | cons m ms ih =>
    by_cases h : m.mealType = nm.mealType
    · have hb : (m.mealType == nm.mealType) = true := by simp [h]
      simp [replaceOrAppendMeal, replaceOrAppendMealAux, List.findIdx_cons, hb]
    · have hb : (m.mealType == nm.mealType) = false := by simp [h]
      simp only [replaceOrAppendMeal, replaceOrAppendMealAux, List.findIdx_cons, hb,
        cond_false, List.length_cons, Bool.false_eq_true, if_false]
      rw [← ih]
      simp only [replaceOrAppendMeal]
      by_cases hlt :
          List.findIdx (fun meal => meal.mealType == nm.mealType) ms < ms.length
      · simp [Nat.succ_lt_succ_iff, hlt]
      · simp [Nat.succ_lt_succ_iff, hlt]

/-- Placement only touches the multiset of meal types in the expected way:
it is unchanged when the type was present, extended by it otherwise. -/
theorem replaceOrAppendMealAux_map_mealType (meals : List Meal) (nm : Meal) :
    (replaceOrAppendMealAux meals nm).map Meal.mealType =
      if nm.mealType ∈ meals.map Meal.mealType then meals.map Meal.mealType
      else meals.map Meal.mealType ++ [nm.mealType] := by
  induction meals with
  | nil => simp [replaceOrAppendMealAux]
  | cons m ms ih =>
    by_cases h : m.mealType = nm.mealType
    · simp [replaceOrAppendMealAux, h]
    · have hb : (m.mealType == nm.mealType) = false := by simp [h]
      by_cases hmem : nm.mealType ∈ ms.map Meal.mealType
      · simp [replaceOrAppendMealAux, hb, ih, hmem, Ne.symm h]
      · simp [replaceOrAppendMealAux, hb, ih, hmem, Ne.symm h]

/-- Placement preserves distinctness of meal types. -/
theorem replaceOrAppendMealAux_nodup (meals : List Meal) (nm : Meal)
    (h : (meals.map Meal.mealType).Nodup) :
    ((replaceOrAppendMealAux meals nm).map Meal.mealType).Nodup := by
  rw [replaceOrAppendMealAux_map_mealType]
  split
  · exact h
  · next hmem => simp [List.nodup_append, h, hmem]

/-- The new meal always ends up in the placed list. -/
theorem mem_replaceOrAppendMealAux (meals : List Meal) (nm : Meal) :
    nm ∈ replaceOrAppendMealAux meals nm := by
  induction meals with
  | nil => simp [replaceOrAppendMealAux]
  | cons m ms ih =>
    rw [replaceOrAppendMealAux]
    split
    · exact List.mem_cons_self _ _
    · exact List.mem_cons_of_mem _ ih

/-- When the new meal's type already occurs, the first meal of that type is
replaced wholesale and nothing else moves. -/
theorem replaceOrAppendMealAux_replace (pre post : List Meal) (old nm : Meal)
    (hold : old.mealType = nm.mealType)
    (hpre : ∀ m ∈ pre, m.mealType ≠ nm.mealType) :
    replaceOrAppendMealAux (pre ++ old :: post) nm = pre ++ nm :: post := by
  induction pre with
  | nil => simp [replaceOrAppendMealAux, hold]
  | cons p ps ih =>
    have hp : p.mealType ≠ nm.mealType := hpre p (List.mem_cons_self _ _)
    have hb : (p.mealType == nm.mealType) = false := by simp [hp]
    simp only [List.cons_append, replaceOrAppendMealAux, hb, Bool.false_eq_true, if_false]
    exact congrArg (List.cons p) (ih fun m hm => hpre m (List.mem_cons_of_mem _ hm))

/-- The pre-save hook does not change any meal's type. -/
theorem mealEntryPreSave_map_mealType (entry : MealEntry) :
    (mealEntryPreSave entry).meals.map Meal.mealType = entry.meals.map Meal.mealType := by
  simp only [mealEntryPreSave, List.map_map]
  rfl

/-- The meals of a submitted day: the placed list with every meal's totals
refreshed. -/
theorem submitMeal_meals (entry : MealEntry) (mt : MealType) (mealName : String)
    (foods : List Food) :
    (submitMeal entry mt mealName foods).meals =
      (replaceOrAppendMealAux entry.meals (newMeal mt mealName foods)).map
        fun meal => { meal with mealTotals := calculatedTotals meal.foods } := by
  simp [submitMeal, mealEntryPreSave, replaceOrAppendMeal_eq_aux]

/-! ## Claim theorems -/

/-- C1: for every DayEntry state produced by the save path, each meal's
`mealTotals` is the field-by-field sum (calories, protein, carbohydrates,
fat, fiber) of `actualNutrition` over that meal's foods, `dailyTotals` is
the field-by-field sum of `mealTotals` over the day's meals (in particular
calories additivity holds exactly), and an empty food list yields all-zero
totals. -/
theorem mealEntry_totals_additive (entry : MealEntry) :
    (∀ m ∈ (mealEntryPreSave entry).meals,
        m.mealTotals.calories = (m.foods.map fun f => f.actualNutrition.calories).sum ∧
        m.mealTotals.protein = (m.foods.map fun f => f.actualNutrition.protein).sum ∧
        m.mealTotals.carbohydrates =
          (m.foods.map fun f => f.actualNutrition.carbohydrates).sum ∧
        m.mealTotals.fat = (m.foods.map fun f => f.actualNutrition.fat).sum ∧
        m.mealTotals.fiber = (m.foods.map fun f => f.actualNutrition.fiber).sum) ∧
    ((mealEntryPreSave entry).dailyTotals.calories =
        ((mealEntryPreSave entry).meals.map fun m => m.mealTotals.calories).sum ∧
      (mealEntryPreSave entry).dailyTotals.protein =
        ((mealEntryPreSave entry).meals.map fun m => m.mealTotals.protein).sum ∧
      (mealEntryPreSave entry).dailyTotals.carbohydrates =
        ((mealEntryPreSave entry).meals.map fun m => m.mealTotals.carbohydrates).sum ∧
      (mealEntryPreSave entry).dailyTotals.fat =
        ((mealEntryPreSave entry).meals.map fun m => m.mealTotals.fat).sum ∧
      (mealEntryPreSave entry).dailyTotals.fiber =
        ((mealEntryPreSave entry).meals.map fun m => m.mealTotals.fiber).sum) ∧
    (∀ m ∈ (mealEntryPreSave entry).meals, m.foods = [] → m.mealTotals = MealTotals.zero) := by
  refine ⟨?_, ⟨?_, ?_, ?_, ?_, ?_⟩, ?_⟩
  · intro m hm
    simp only [mealEntryPreSave, List.mem_map] at hm
    obtain ⟨m₀, hm₀, rfl⟩ := hm
    refine ⟨?_, ?_, ?_, ?_, ?_⟩ <;>
      simp [calculatedTotals, MealTotals.zero, foldl_addFoodTotals_calories,
        foldl_addFoodTotals_protein, foldl_addFoodTotals_carbohydrates,
        foldl_addFoodTotals_fat, foldl_addFoodTotals_fiber]
  · simp [mealEntryPreSave, calcDailyTotals, Nutrition.zero, foldl_addMealTotals_calories]
  · simp [mealEntryPreSave, calcDailyTotals, Nutrition.zero, foldl_addMealTotals_protein]
  · simp [mealEntryPreSave, calcDailyTotals, Nutrition.zero,
      foldl_addMealTotals_carbohydrates]
  · simp [mealEntryPreSave, calcDailyTotals, Nutrition.zero, foldl_addMealTotals_fat]
  · simp [mealEntryPreSave, calcDailyTotals, Nutrition.zero, foldl_addMealTotals_fiber]
  · intro m hm hf
    simp only [mealEntryPreSave, List.mem_map] at hm
    obtain ⟨m₀, hm₀, rfl⟩ := hm
    simp only at hf
    simp [calculatedTotals, hf, MealTotals.zero]

/-- Witness for C1 at a concrete one-meal day (and a concrete day whose
meal has an empty food list). -/
theorem mealEntry_totals_additive_witness :
    sampleSavedMeal.mealTotals.calories =
        (sampleSavedMeal.foods.map fun f => f.actualNutrition.calories).sum ∧
    (mealEntryPreSave sampleEntry).dailyTotals.calories =
        ((mealEntryPreSave sampleEntry).meals.map fun m => m.mealTotals.calories).sum ∧
    ({ mealType := .lunch, foods := [], mealTotals := calculatedTotals [] } : Meal).mealTotals =
        MealTotals.zero := by
  refine ⟨?_, ?_, ?_⟩
  · exact ((mealEntry_totals_additive sampleEntry).1 sampleSavedMeal
      (by simp [mealEntryPreSave, sampleEntry, sampleSavedMeal])).1
  · exact (mealEntry_totals_additive sampleEntry).2.1.1
  · exact (mealEntry_totals_additive emptyLunchEntry).2.2
      ({ mealType := .lunch, foods := [], mealTotals := calculatedTotals [] } : Meal)
      (by simp [mealEntryPreSave, emptyLunchEntry]) rfl

/-- C10: after every save, the extended fields of `dailyTotals` (sugar,
sodium, potassium, calcium, iron) are exactly 0, even when the day's
foods carry nonzero values for them: meal totals only track the five core
nutrients and the daily reduce never reads extended fields from a meal. -/
theorem dailyTotals_extended_fields_zero :
    (∀ entry : MealEntry,
        (mealEntryPreSave entry).dailyTotals.sugar = 0 ∧
        (mealEntryPreSave entry).dailyTotals.sodium = 0 ∧
        (mealEntryPreSave entry).dailyTotals.potassium = 0 ∧
        (mealEntryPreSave entry).dailyTotals.calcium = 0 ∧
        (mealEntryPreSave entry).dailyTotals.iron = 0) ∧
    (banana100.actualNutrition.sugar = 12 ∧
      (mealEntryPreSave bananaEntry).dailyTotals.sugar = 0) := by
  have hall : ∀ entry : MealEntry,
      (mealEntryPreSave entry).dailyTotals.sugar = 0 ∧
      (mealEntryPreSave entry).dailyTotals.sodium = 0 ∧
      (mealEntryPreSave entry).dailyTotals.potassium = 0 ∧
      (mealEntryPreSave entry).dailyTotals.calcium = 0 ∧
      (mealEntryPreSave entry).dailyTotals.iron = 0 := by
    intro entry
    refine ⟨?_, ?_, ?_, ?_, ?_⟩ <;>
      simp [mealEntryPreSave, calcDailyTotals, Nutrition.zero,
        foldl_addMealTotals_sugar, foldl_addMealTotals_sodium,
        foldl_addMealTotals_potassium, foldl_addMealTotals_calcium,
        foldl_addMealTotals_iron]
  exact ⟨hall, rfl, (hall bananaEntry).1⟩

/-- C2 counterexample: at weight 75 kg, height 180 cm, age 34, male, the
code's Mifflin–St Jeor formula evaluates to 1710, not the claimed 1650
(10·75 + 6.25·180 − 5·34 + 5 = 1710). -/
theorem generateBMR_scenario_cex :
    generateBMR 75 .kg 180 .cm 34 .male = 1710 ∧ (1710 : ℤ) ≠ 1650 := by
  constructor
  · norm_num [generateBMR, jsRound]
  · decide

/-- C2 amended: for male gender `generateBMR` is
`round(10·weight + 6.25·height − 5·age + 5)`, and at weight 75 kg, height
180 cm, age 34 it returns 1710 (not 1650). -/
theorem generateBMR_male_spec :
    (∀ w h a : ℚ,
        generateBMR w .kg h .cm a .male = jsRound (10 * w + 6.25 * h - 5 * a + 5)) ∧
    generateBMR 75 .kg 180 .cm 34 .male = 1710 := by
  constructor
  · intro w h a
    rfl
  · norm_num [generateBMR, jsRound]

/-- C3 counterexample: a positive infinite amount is non-finite, yet the
handler's gate `isNaN(x) || x <= 0` does not reject it — the request
proceeds instead of failing with InvalidAmount. -/
theorem validateFoodAmount_posInf_cex :
    JSNumber.posInf.isFinite = false ∧
      validateFoodAmount JSNumber.posInf = Except.ok JSNumber.posInf :=
  ⟨rfl, rfl⟩

/-- C3 amended: the food-nutrition handler fails with InvalidAmount exactly
when the parsed amount is NaN or ≤ 0 (so every non-positive amount,
including −∞, and NaN are rejected before any computation, and every
positive finite amount passes); a positive infinite amount is *not*
rejected. -/
theorem validateFoodAmount_spec :
    (∀ a : JSNumber,
        validateFoodAmount a = Except.error ApiError.invalidAmount ↔
          (a.isNaN = true ∨ a.leZero = true)) ∧
    (∀ q : ℚ, 0 < q →
        validateFoodAmount (JSNumber.finite q) = Except.ok (JSNumber.finite q)) ∧
    (∀ q : ℚ, q ≤ 0 →
        validateFoodAmount (JSNumber.finite q) = Except.error ApiError.invalidAmount) ∧
    validateFoodAmount JSNumber.nan = Except.error ApiError.invalidAmount ∧
    validateFoodAmount JSNumber.negInf = Except.error ApiError.invalidAmount := by
  refine ⟨?_, ?_, ?_, rfl, rfl⟩
  · intro a
    cases a <;>
      simp [validateFoodAmount, JSNumber.isNaN, JSNumber.leZero]
  · intro q hq
    have hn : ¬q ≤ 0 := not_le.mpr hq
    simp [validateFoodAmount, JSNumber.isNaN, JSNumber.leZero, hn]
  · intro q hq
    simp [validateFoodAmount, JSNumber.isNaN, JSNumber.leZero, hq]

/-- Witness for C3 (amended) at the concrete amounts 150 and 0. -/
theorem validateFoodAmount_spec_witness :
    validateFoodAmount (JSNumber.finite 150) = Except.ok (JSNumber.finite 150) ∧
    validateFoodAmount (JSNumber.finite 0) = Except.error ApiError.invalidAmount :=
  ⟨validateFoodAmount_spec.2.1 150 (by norm_num),
   validateFoodAmount_spec.2.2.1 0 le_rfl⟩

/-- C4: scaling a per-100g nutrition record rounds calories to the nearest
integer (within 1/2 of the exact value) and every gram-valued macro to one
decimal place (a multiple of 1/10 within 1/20 of the exact value); for the
reference record {165, 31, 0, 3.6} per 100 g at amount 150 g the scaled
record is {248, 46.5, 0, 5.4}. -/
theorem scaledNutrition_rounding :
    (∀ (b : SpoonacularNutrition) (a : ℚ),
        (∃ k : ℤ, (scaledNutrition b a).calories = (k : ℚ) ∧
            |(scaledNutrition b a).calories - b.calories * (a / 100)| ≤ 1/2) ∧
        (∃ k : ℤ, (scaledNutrition b a).protein = (k : ℚ) / 10 ∧
            |(scaledNutrition b a).protein - b.protein * (a / 100)| ≤ 1/20) ∧
        (∃ k : ℤ, (scaledNutrition b a).carbohydrates = (k : ℚ) / 10 ∧
            |(scaledNutrition b a).carbohydrates - b.carbohydrates * (a / 100)| ≤ 1/20) ∧
        (∃ k : ℤ, (scaledNutrition b a).fat = (k : ℚ) / 10 ∧
            |(scaledNutrition b a).fat - b.fat * (a / 100)| ≤ 1/20) ∧
        (∃ k : ℤ, (scaledNutrition b a).fiber = (k : ℚ) / 10 ∧
            |(scaledNutrition b a).fiber - b.fiber * (a / 100)| ≤ 1/20)) ∧
    ((getMockNutritionData 1 150).calories = 248 ∧
      (getMockNutritionData 1 150).protein = 46.5 ∧
      (getMockNutritionData 1 150).carbohydrates = 0 ∧
      (getMockNutritionData 1 150).fat = 5.4) := by
  constructor
  · intro b a
    exact ⟨⟨jsRound (b.calories * (a / 100)), rfl, jsRound_dist _⟩,
      ⟨jsRound (b.protein * (a / 100) * 10), rfl, round1_dist _⟩,
      ⟨jsRound (b.carbohydrates * (a / 100) * 10), rfl, round1_dist _⟩,
      ⟨jsRound (b.fat * (a / 100) * 10), rfl, round1_dist _⟩,
      ⟨jsRound (b.fiber * (a / 100) * 10), rfl, round1_dist _⟩⟩
  · refine ⟨?_, ?_, ?_, ?_⟩ <;>
      norm_num [getMockNutritionData, mockNutrition, scaledNutrition, round1, jsRound]

/-- C5: `calculateGoalProgress` stores the actual rounded to two decimals,
`percentage = round(actual/target*100)` for positive target and 0 for zero
target regardless of actual, and `remaining = max(target − actual, 0)` is
never negative; at goals 2000 and actual 1450 the record is
{target 2000, actual 1450, percentage 73, remaining 550}. -/
theorem calculateGoalProgress_spec :
    (∀ actual target : ℚ,
        (calculateGoalProgress actual target).target = target ∧
        (calculateGoalProgress actual target).actual = round2 actual ∧
        (0 < target → (calculateGoalProgress actual target).percentage =
            (jsRound (actual / target * 100) : ℚ)) ∧
        (target = 0 → (calculateGoalProgress actual target).percentage = 0) ∧
        (calculateGoalProgress actual target).remaining = max 0 (target - actual) ∧
        0 ≤ (calculateGoalProgress actual target).remaining) ∧
    ((calculateGoalProgress 1450 2000).target = 2000 ∧
      (calculateGoalProgress 1450 2000).actual = 1450 ∧
      (calculateGoalProgress 1450 2000).percentage = 73 ∧
      (calculateGoalProgress 1450 2000).remaining = 550) := by
  constructor
  · intro actual target
    refine ⟨rfl, rfl, ?_, ?_, rfl, le_max_left 0 _⟩
    · intro ht
      simp [calculateGoalProgress, ht]
    · intro ht
      simp [calculateGoalProgress, ht]
  · refine ⟨rfl, ?_, ?_, ?_⟩ <;>
      norm_num [calculateGoalProgress, round2, jsRound, max_def]

/-- Witness for C5 at a positive target (2000) and a zero target. -/
theorem calculateGoalProgress_spec_witness :
    (calculateGoalProgress 1450 2000).percentage = (jsRound (1450 / 2000 * 100) : ℚ) ∧
    (calculateGoalProgress 95 0).percentage = 0 :=
  ⟨(calculateGoalProgress_spec.1 1450 2000).2.2.1 (by norm_num),
   (calculateGoalProgress_spec.1 95 0).2.2.2.1 rfl⟩

/-- C7: `calculateTDEE` is `round(bmr · multiplier)` with multipliers
sedentary 1.2, light 1.375, moderate 1.55, active 1.725, very_active 1.9,
and any activity level outside this set falls back to sedentary's 1.2
rather than erroring. -/
theorem calculateTDEE_spec :
    (∀ bmr : ℚ,
        calculateTDEE bmr "sedentary" = jsRound (bmr * 1.2) ∧
        calculateTDEE bmr "light" = jsRound (bmr * 1.375) ∧
        calculateTDEE bmr "moderate" = jsRound (bmr * 1.55) ∧
        calculateTDEE bmr "active" = jsRound (bmr * 1.725) ∧
        calculateTDEE bmr "very_active" = jsRound (bmr * 1.9)) ∧
    (∀ (bmr : ℚ) (level : String),
        level ∉ ["sedentary", "light", "moderate", "active", "very_active"] →
          calculateTDEE bmr level = jsRound (bmr * 1.2)) := by
  constructor
  · intro bmr
    refine ⟨?_, ?_, ?_, ?_, ?_⟩ <;>
      simp [calculateTDEE, activityMultipliers]
  · intro bmr level hlevel
    simp only [List.mem_cons, List.not_mem_nil, or_false, not_or] at hlevel
    obtain ⟨h1, h2, h3, h4, h5⟩ := hlevel
    simp [calculateTDEE, activityMultipliers, h1, h2, h3, h4, h5]

/-- Witness for C7 at an activity level outside the enumerated set. -/
theorem calculateTDEE_spec_witness :
    calculateTDEE 1710 "swimming" = jsRound (1710 * 1.2) :=
  calculateTDEE_spec.2 1710 "swimming" (by decide)

/-- C8: when macroTargets or dailyCalories are modified, the user pre-save
hook recomputes `macroPercentages.X = round(macroTargets.X · kcalPerGram(X)
/ dailyCalories · 100)` with 4 kcal/g for protein and carbohydrates and
9 kcal/g for fat (and leaves goals untouched otherwise); for
{protein 150, carbohydrates 250, fat 44} at 2000 kcal the percentages are
{30, 50, 20}. -/
theorem userPreSave_macroPercentages :
    (∀ g : UserGoals,
        (userPreSave true g).macroPercentages.protein =
          (jsRound (g.macroTargets.protein * 4 / g.dailyCalories * 100) : ℚ) ∧
        (userPreSave true g).macroPercentages.carbohydrates =
          (jsRound (g.macroTargets.carbohydrates * 4 / g.dailyCalories * 100) : ℚ) ∧
        (userPreSave true g).macroPercentages.fat =
          (jsRound (g.macroTargets.fat * 9 / g.dailyCalories * 100) : ℚ)) ∧
    (∀ g : UserGoals, userPreSave false g = g) ∧
    (userPreSave true
        { dailyCalories := 2000
          macroTargets := { protein := 150, carbohydrates := 250, fat := 44 }
          macroPercentages := { protein := 0, carbohydrates := 0, fat := 0 } }).macroPercentages =
      { protein := 30, carbohydrates := 50, fat := 20 } := by
  refine ⟨fun g => ⟨rfl, rfl, rfl⟩, fun g => rfl, ?_⟩
  norm_num [userPreSave, jsRound, MacroPercentages.mk.injEq]

/-- C6: submitting a meal for a mealType already present on the day fully
replaces the prior meal of that type (never merges): meal types stay
pairwise distinct, the result does not depend on the replaced meal's
contents at all, and a day with a 300 kcal breakfast that receives a new
400 kcal breakfast ends at dailyTotals.calories = 400, not 700. -/
theorem submitMeal_replace_not_merge :
    (∀ (entry : MealEntry) (mt : MealType) (name : String) (foods : List Food),
        (entry.meals.map Meal.mealType).Nodup →
          ((submitMeal entry mt name foods).meals.map Meal.mealType).Nodup) ∧
    (∀ (pre post : List Meal) (old old' : Meal) (d d' : Nutrition)
        (name : String) (foods : List Food),
        old.mealType = old'.mealType →
        (∀ m ∈ pre, m.mealType ≠ old.mealType) →
          submitMeal ⟨pre ++ old :: post, d⟩ old.mealType name foods =
            submitMeal ⟨pre ++ old' :: post, d'⟩ old.mealType name foods) ∧
    ((submitMeal day300 .breakfast "" [food400]).dailyTotals.calories = 400 ∧
      (submitMeal day300 .breakfast "" [food400]).dailyTotals.calories ≠ 700) := by
  refine ⟨?_, ?_, ?_, ?_⟩
  · intro entry mt name foods hnd
    have hmap : (submitMeal entry mt name foods).meals.map Meal.mealType =
        (replaceOrAppendMealAux entry.meals (newMeal mt name foods)).map Meal.mealType := by
      rw [submitMeal_meals, List.map_map]
      rfl
    rw [hmap]
    exact replaceOrAppendMealAux_nodup _ _ hnd
  · intro pre post old old' d d' name foods hOld hpre
    simp only [submitMeal, replaceOrAppendMeal_eq_aux]
    rw [replaceOrAppendMealAux_replace pre post old (newMeal old.mealType name foods)
        rfl hpre,
      replaceOrAppendMealAux_replace pre post old' (newMeal old.mealType name foods)
        hOld.symm hpre]
    rfl
  · norm_num [submitMeal, mealEntryPreSave, replaceOrAppendMeal, calcDailyTotals,
      calculatedTotals, addMealTotals, addFoodTotals, newMeal, day300,
      breakfastMeal300, food300, food400, Nutrition.zero, MealTotals.zero,
      List.findIdx_cons]
  · norm_num [submitMeal, mealEntryPreSave, replaceOrAppendMeal, calcDailyTotals,
      calculatedTotals, addMealTotals, addFoodTotals, newMeal, day300,
      breakfastMeal300, food300, food400, Nutrition.zero, MealTotals.zero,
      List.findIdx_cons]

/-- Witness for C6: the distinctness clause applied at the concrete
300 kcal day, and the independence clause applied to the same day with the
old breakfast's foods emptied out. -/
theorem submitMeal_replace_not_merge_witness :
    ((submitMeal day300 .breakfast "" [food400]).meals.map Meal.mealType).Nodup ∧
    submitMeal ⟨[breakfastMeal300], day300.dailyTotals⟩ .breakfast "" [food400] =
      submitMeal ⟨[{ breakfastMeal300 with foods := [] }], Nutrition.zero⟩
        .breakfast "" [food400] := by
  constructor
  · exact submitMeal_replace_not_merge.1 day300 .breakfast "" [food400]
      (by simp [day300, breakfastMeal300])
  · exact submitMeal_replace_not_merge.2.1 [] [] breakfastMeal300
      { breakfastMeal300 with foods := [] } day300.dailyTotals Nutrition.zero
      "" [food400] rfl (by simp)

/-- C9 counterexample: a food that passes the meal schema's validation but
whose client-supplied `actualNutrition` (calories 999) is not the scaled
reference nutrition (248 for 150 g of the 165 kcal/100g record) is stored
verbatim by the save path — the invariant is not enforced. -/
theorem submitMeal_actualNutrition_cex :
    foodValid bogusFood = true ∧
    (submitMeal emptyDay .breakfast "" [bogusFood]).meals.map
        (fun m => m.foods.map Food.actualNutrition) =
      [[bogusFood.actualNutrition]] ∧
    bogusFood.actualNutrition.calories = 999 ∧
    (scaleSpec bogusFood.nutritionPer100g bogusFood.amount 100).calories = 248 ∧
    (999 : ℚ) ≠ 248 := by
  refine ⟨?_, ?_, rfl, ?_, by norm_num⟩
  · norm_num [foodValid, nutritionNonneg, bogusFood, chickenPer100g,
      Bool.and_eq_true, decide_eq_true_eq]
  · simp [submitMeal, mealEntryPreSave, replaceOrAppendMeal, emptyDay, newMeal]
  · norm_num [scaleSpec, bogusFood, chickenPer100g, jsRound]

/-- C9 amended: the save path stores the client-supplied foods of the
submitted meal verbatim (`actualNutrition` included); nothing recomputes
`actualNutrition` from `nutritionPer100g` and `amount`, so the scaling
invariant holds only when the client sends scaled values. -/
theorem submitMeal_stores_client_foods :
    ∀ (entry : MealEntry) (mt : MealType) (name : String) (foods : List Food),
      ∃ m ∈ (submitMeal entry mt name foods).meals, m.mealType = mt ∧ m.foods = foods := by
  intro entry mt name foods
  refine ⟨{ newMeal mt name foods with
      mealTotals := calculatedTotals (newMeal mt name foods).foods }, ?_, rfl, rfl⟩
  rw [submitMeal_meals]
  exact List.mem_map_of_mem _ (mem_replaceOrAppendMealAux _ _)

end MacroTrack
